import Mathlib

/-!
Verification of the `trading_bot` repository: a shallow embedding of
`src/bot/client.py` (request signing and response classification),
`src/bot/orders.py` (order-result normalization) and
`src/bot/validators.py` (input validation), with theorems settling the
spec's claims about them.

Bytes are modelled as `Nat` values below 256; machine-word arithmetic in
SHA-256 is `Nat` arithmetic reduced modulo `2^32`.
-/

namespace TradingBot

/-! ### UTF-8 encoding (Python `str.encode("utf-8")`) -/

/-- UTF-8 encoding of a single character, as a list of bytes. -/
def utf8EncodeChar (c : Char) : List Nat :=
  let n := c.toNat
  if n < 128 then [n]
  else if n < 2048 then [192 + n / 64, 128 + n % 64]
  else if n < 65536 then [224 + n / 4096, 128 + (n / 64) % 64, 128 + n % 64]
  else [240 + n / 262144, 128 + (n / 4096) % 64, 128 + (n / 64) % 64, 128 + n % 64]

/-- UTF-8 bytes of a string. -/
def utf8Bytes (s : String) : List Nat :=
  s.data.foldr (fun c acc => utf8EncodeChar c ++ acc) []

/-! ### SHA-256 (`hashlib.sha256`) -/

/-- Reduce to a 32-bit word. -/
def w32 (n : Nat) : Nat := n % 4294967296

/-- Rotate a 32-bit word right by `n` bits. -/
def rotr32 (n x : Nat) : Nat := w32 ((x >>> n) ||| (x <<< (32 - n)))

def shaCh (x y z : Nat) : Nat := (x &&& y) ^^^ ((x ^^^ 4294967295) &&& z)

def shaMaj (x y z : Nat) : Nat := (x &&& y) ^^^ (x &&& z) ^^^ (y &&& z)

def bigSigma0 (x : Nat) : Nat := rotr32 2 x ^^^ rotr32 13 x ^^^ rotr32 22 x

def bigSigma1 (x : Nat) : Nat := rotr32 6 x ^^^ rotr32 11 x ^^^ rotr32 25 x

def smallSigma0 (x : Nat) : Nat := rotr32 7 x ^^^ rotr32 18 x ^^^ (x >>> 3)

def smallSigma1 (x : Nat) : Nat := rotr32 17 x ^^^ rotr32 19 x ^^^ (x >>> 10)

/-- The 64 SHA-256 round constants, in decimal. -/
def shaK : List Nat :=
  [1116352408, 1899447441, 3049323471, 3921009573, 961987163, 1508970993,
   2453635748, 2870763221, 3624381080, 310598401, 607225278, 1426881987,
   1925078388, 2162078206, 2614888103, 3248222580, 3835390401, 4022224774,
   264347078, 604807628, 770255983, 1249150122, 1555081692, 1996064986,
   2554220882, 2821834349, 2952996808, 3210313671, 3336571891, 3584528711,
   113926993, 338241895, 666307205, 773529912, 1294757372, 1396182291,
   1695183700, 1986661051, 2177026350, 2456956037, 2730485921, 2820302411,
   3259730800, 3345764771, 3516065817, 3600352804, 4094571909, 275423344,
   430227734, 506948616, 659060556, 883997877, 958139571, 1322822218,
   1537002063, 1747873779, 1955562222, 2024104815, 2227730452, 2361852424,
   2428436474, 2756734187, 3204031479, 3329325298]

/-- The initial SHA-256 hash state, in decimal. -/
def shaH0 : List Nat :=
  [1779033703, 3144134277, 1013904242, 2773480762,
   1359893119, 2600822924, 528734635, 1541459225]

/-- Big-endian 8-byte rendering of a natural number (the padded bit length). -/
def be64 (n : Nat) : List Nat :=
  [n / 72057594037927936 % 256, n / 281474976710656 % 256, n / 1099511627776 % 256,
   n / 4294967296 % 256, n / 16777216 % 256, n / 65536 % 256, n / 256 % 256, n % 256]

/-- SHA-256 padding: append 0x80, zeros to 56 mod 64, then the bit length. -/
def shaPad (msg : List Nat) : List Nat :=
  let len := msg.length
  let padZeros := (119 - len % 64) % 64
  msg ++ [128] ++ List.replicate padZeros 0 ++ be64 (len * 8)

/-- The 16 big-endian message words of one 64-byte block. -/
def blockWords (block : List Nat) : List Nat :=
  (List.range 16).map fun i =>
    block.getD (4 * i) 0 * 16777216 + block.getD (4 * i + 1) 0 * 65536 +
    block.getD (4 * i + 2) 0 * 256 + block.getD (4 * i + 3) 0

/-- Extend 16 message words to the 64-entry message schedule. -/
def extendWords (w : List Nat) : List Nat :=
  (List.range 48).foldl (fun acc _ =>
    let t := acc.length
    acc ++ [w32 (smallSigma1 (acc.getD (t - 2) 0) + acc.getD (t - 7) 0 +
                 smallSigma0 (acc.getD (t - 15) 0) + acc.getD (t - 16) 0)]) w

/-- One SHA-256 compression: fold the 64 rounds over one block, then add. -/
def compressBlock (h : List Nat) (block : List Nat) : List Nat :=
  let w := extendWords (blockWords block)
  let final := (List.range 64).foldl (fun s t =>
    match s with
    | [a, b, c, d, e, f, g, hh] =>
      let t1 := w32 (hh + bigSigma1 e + shaCh e f g + shaK.getD t 0 + w.getD t 0)
      let t2 := w32 (bigSigma0 a + shaMaj a b c)
      [w32 (t1 + t2), a, b, c, w32 (d + t1), e, f, g]
    | other => other) h
  match h, final with
  | [h0, h1, h2, h3, h4, h5, h6, h7], [a, b, c, d, e, f, g, hh] =>
    [w32 (h0 + a), w32 (h1 + b), w32 (h2 + c), w32 (h3 + d),
     w32 (h4 + e), w32 (h5 + f), w32 (h6 + g), w32 (h7 + hh)]
  | _, _ => h

/-- SHA-256 digest (32 bytes) of a byte list. -/
def sha256 (msg : List Nat) : List Nat :=
  let padded := shaPad msg
  let nBlocks := padded.length / 64
  let finalH := (List.range nBlocks).foldl
    (fun h i => compressBlock h ((padded.drop (64 * i)).take 64)) shaH0
  finalH.foldr (fun word acc =>
    [word / 16777216 % 256, word / 65536 % 256, word / 256 % 256, word % 256] ++ acc) []

/-! ### HMAC-SHA256 (`hmac.new(key, msg, hashlib.sha256)`) -/

/-- HMAC-SHA256 tag (32 bytes) of a message under a key, RFC 2104 with a
64-byte block size. -/
def hmacSha256 (key msg : List Nat) : List Nat :=
  let k0 := if key.length > 64 then sha256 key else key
  let k := k0 ++ List.replicate (64 - k0.length) 0
  let ipad := k.map (fun b => b ^^^ 54)
  let opad := k.map (fun b => b ^^^ 92)
  sha256 (opad ++ sha256 (ipad ++ msg))

/-- A nibble as a lowercase hexadecimal character. -/
def hexLowerDigit (n : Nat) : Char := if n < 10 then Char.ofNat (48 + n) else Char.ofNat (87 + n)

/-- Lowercase hex rendering of a byte list (Python `hexdigest()`). -/
def bytesToHexLower (bs : List Nat) : String :=
  bs.foldr (fun b acc => String.mk [hexLowerDigit (b / 16), hexLowerDigit (b % 16)] ++ acc) ""

/-- `hmac.new(key, msg, hashlib.sha256).hexdigest()`. -/
def hmacSha256Hex (key msg : List Nat) : String := bytesToHexLower (hmacSha256 key msg)

/-! ### Python `urllib.parse.urlencode` with `quote_plus` -/

/-- Bytes that `urllib.parse.quote` leaves unencoded with `safe=''`:
ASCII letters, digits, and `_.-~`. -/
def isUrlSafeByte (b : Nat) : Bool :=
  (65 ≤ b && b ≤ 90) || (97 ≤ b && b ≤ 122) || (48 ≤ b && b ≤ 57) ||
  b == 95 || b == 46 || b == 45 || b == 126

/-- A nibble as an uppercase hexadecimal character. -/
def hexUpperDigit (n : Nat) : Char := if n < 10 then Char.ofNat (48 + n) else Char.ofNat (55 + n)

/-- `urllib.parse.quote_plus` with `safe=''`: UTF-8 encode, keep safe bytes,
turn spaces into `+`, percent-encode the rest in uppercase hex. -/
def quotePlus (s : String) : String :=
  (utf8Bytes s).foldr (fun b acc =>
    (if isUrlSafeByte b then String.mk [Char.ofNat b]
     else if b == 32 then "+"
     else String.mk ['%', hexUpperDigit (b / 16), hexUpperDigit (b % 16)]) ++ acc) ""

/-- `urllib.parse.urlencode(items, doseq=True)` over already-stringified
values: quote each key and value and join the pairs with `&`. -/
def urlencode (items : List (String × String)) : String :=
  String.intercalate "&" (items.map fun kv => quotePlus kv.1 ++ "=" ++ quotePlus kv.2)

/-! ### `src/bot/client.py` — `BinanceFuturesClient`

Parameter mappings are association lists of string keys to
already-stringified values, in insertion order (Python dicts preserve
insertion order and `urlencode` calls `str` on non-string values). The
signing timestamp `int(time.time() * 1000)` is an explicit argument. The
secret is its UTF-8 byte list (`api_secret.encode("utf-8")`). -/

/-- Python `key in params` on a dict modelled as an association list. -/
def containsKey (params : List (String × String)) (key : String) : Bool :=
  params.any fun kv => kv.1 == key

/-- The `items` list of `_build_signed_body`: the caller's entries in
order, then `("timestamp", ts)`, then `("recvWindow", 5000)` only when
`params` has no `recvWindow` key. -/
def signedItems (params : List (String × String)) (ts : Nat) : List (String × String) :=
  let items := params ++ [("timestamp", toString ts)]
  if containsKey params "recvWindow" then items else items ++ [("recvWindow", "5000")]

/-- `BinanceFuturesClient._build_signed_body`: urlencode the items, sign
the exact encoded string with HMAC-SHA256, append `&signature=<hex>`. -/
def buildSignedBody (secret : List Nat) (params : List (String × String)) (ts : Nat) : String :=
  let queryString := urlencode (signedItems params ts)
  let signature := hmacSha256Hex secret (utf8Bytes queryString)
  queryString ++ "&signature=" ++ signature

/-- `_build_signed_body` with the caller's dict threaded as state: the
method copies `params.items()` into a local list and appends only to that
copy, so the dict it returns alongside the body is the one it was given. -/
def buildSignedBodyFrame (secret : List Nat) (params : List (String × String)) (ts : Nat) :
    String × List (String × String) :=
  let items := params
  let items := items ++ [("timestamp", toString ts)]
  let items := if containsKey params "recvWindow" then items else items ++ [("recvWindow", "5000")]
  let queryString := urlencode items
  let signature := hmacSha256Hex secret (utf8Bytes queryString)
  (queryString ++ "&signature=" ++ signature, params)

/-- A parsed JSON value as far as the client consumes it. -/
inductive Jval where
  | jstr : String → Jval
  | jint : Int → Jval
  | jnull : Jval
  deriving DecidableEq, Repr

/-- Python `data.get(key)` on a parsed JSON object. -/
def dictGet : List (String × Jval) → String → Option Jval
  | [], _ => none
  | (k, v) :: rest, key => if k == key then some v else dictGet rest key

/-- Python `data.get(key, default)`. -/
def dictGetD (data : List (String × Jval)) (key : String) (dflt : Jval) : Jval :=
  (dictGet data key).getD dflt

/-- The two error shapes `_handle_response` can raise: `requests`'
`HTTPError` from `raise_for_status()`, and `BinanceAPIException` with its
`(status_code, error_code, message)` fields. -/
inductive HandleError where
  | httpError : Nat → HandleError
  | apiError : Nat → Option Jval → Jval → HandleError
  deriving DecidableEq, Repr

/-- The HTTP status carried by either error shape. -/
def HandleError.statusOf : HandleError → Nat
  | .httpError s => s
  | .apiError s _ _ => s

/-- `BinanceFuturesClient._handle_response`. `parsed` is the outcome of
`response.json()` (`none` when it raises `ValueError`). On parse failure,
`raise_for_status()` raises `HTTPError` exactly when the status is in
4xx/5xx; otherwise the generic `BinanceAPIException` is raised. On parse
success, a status of 400 or more raises `BinanceAPIException` with the
body's `code` and `msg` (defaulted); otherwise the parsed data is
returned. -/
def handleResponse (status : Nat) (parsed : Option (List (String × Jval))) :
    Except HandleError (List (String × Jval)) :=
  match parsed with
  | none =>
    if 400 ≤ status ∧ status < 600 then .error (.httpError status)
    else .error (.apiError status none (.jstr "Non-JSON response from Binance API."))
  | some data =>
    if 400 ≤ status then
      .error (.apiError status (dictGet data "code") (dictGetD data "msg" (.jstr "Unknown error")))
    else .ok data

/-- `BinanceFuturesClient.new_order` up to the `post` call: the parameter
dict it constructs, or the `ValueError` raised for a LIMIT order without a
price. Values are kept as their stringified forms. -/
def newOrderParams (symbol side order_type quantity : String) (price : Option String)
    (time_in_force : String) : Except String (List (String × String)) :=
  let params := [("symbol", symbol), ("side", side), ("type", order_type), ("quantity", quantity)]
  if order_type == "LIMIT" then
    match price with
    | none => .error "Price is required for LIMIT orders."
    | some p => .ok (params ++ [("price", p), ("timeInForce", time_in_force)])
  else .ok params

/-! ### `src/bot/orders.py` — normalization in `place_order` -/

/-- The `OrderResult` dataclass. `order_id` and `avg_price` are `Option`
because `dict.get` yields `None` when the key is absent. -/
structure OrderResult where
  order_id : Option Jval
  status : Jval
  executed_qty : Jval
  avg_price : Option Jval
  raw_response : List (String × Jval)
  deriving DecidableEq, Repr

/-- Lines 61–75 of `place_order`: build an `OrderResult` from a success
payload, with the documented defaults. -/
def normalizeOrder (response : List (String × Jval)) : OrderResult :=
  { order_id := dictGet response "orderId"
    status := dictGetD response "status" (.jstr "UNKNOWN")
    executed_qty := dictGetD response "executedQty" (.jstr "0")
    avg_price := dictGet response "avgPrice"
    raw_response := response }

/-! ### `src/bot/validators.py`

Quantities and prices are modelled as rationals: the repository passes
`float` CLI values through `float(...)`, which cannot fail on an actual
number, so the `try/except` conversion never fires for these inputs and
only the sign checks remain. Errors carry the `ValidationError` message. -/

/-- Python `str.strip()` restricted to whitespace. -/
def pyStrip (s : String) : String :=
  String.mk (((s.data.dropWhile Char.isWhitespace).reverse.dropWhile Char.isWhitespace).reverse)

/-- Python `str.upper()` on ASCII strings. -/
def pyUpper (s : String) : String := String.mk (s.data.map Char.toUpper)

/-- `validators.validate_order_type`. -/
def validateOrderType (order_type : String) : Except String String :=
  if order_type == "" then
    .error "Order type is required and must be 'MARKET' or 'LIMIT'."
  else
    let up := pyUpper (pyStrip order_type)
    if up == "MARKET" || up == "LIMIT" then .ok up
    else .error "Order type must be either 'MARKET' or 'LIMIT'."

/-- `validators.validate_quantity` on a numeric quantity. -/
def validateQuantity (quantity : ℚ) : Except String ℚ :=
  if quantity ≤ 0 then .error "Quantity must be greater than 0." else .ok quantity

/-- `validators.validate_price_for_limit` on a numeric optional price. -/
def validatePriceForLimit (order_type : String) (price : Option ℚ) : Except String (Option ℚ) :=
  match validateOrderType order_type with
  | .error e => .error e
  | .ok up =>
    if up == "MARKET" then
      match price with
      | some _ => .error "Price must not be provided for MARKET orders."
      | none => .ok none
    else
      match price with
      | none => .error "Price is required for LIMIT orders."
      | some p =>
        if p ≤ 0 then .error "Price must be greater than 0 for LIMIT orders."
        else .ok (some p)

/-! ### Theorems for the claims -/

/-- Claim C1: for every parameter mapping without a `signature` key and
every secret, `_build_signed_body` returns `Q ++ "&signature=" ++ S` where
`Q` is the urlencoded serialization of the parameters with timestamp and
(if needed) recvWindow appended, and `S` is the lowercase hex HMAC-SHA256
of the UTF-8 bytes of exactly `Q` under the secret; so recomputing the
HMAC over the body with the `&signature=...` suffix removed yields the
embedded tag. -/
theorem build_signed_body_shape (secret : List Nat) (params : List (String × String)) (ts : Nat)
    (h : containsKey params "signature" = false) :
    ∃ Q, Q = urlencode (signedItems params ts) ∧
      buildSignedBody secret params ts = Q ++ "&signature=" ++ hmacSha256Hex secret (utf8Bytes Q) :=
  ⟨urlencode (signedItems params ts), rfl, rfl⟩

/-- Witness for C1 at a concrete mapping, secret and timestamp. -/
theorem build_signed_body_shape_witness :
    containsKey [("symbol", "BTCUSDT")] "signature" = false ∧
    ∃ Q, Q = urlencode (signedItems [("symbol", "BTCUSDT")] 1700000000000) ∧
      buildSignedBody (utf8Bytes "secret") [("symbol", "BTCUSDT")] 1700000000000 =
        Q ++ "&signature=" ++ hmacSha256Hex (utf8Bytes "secret") (utf8Bytes Q) :=
  ⟨rfl, build_signed_body_shape (utf8Bytes "secret") [("symbol", "BTCUSDT")] 1700000000000 rfl⟩

/-- Claim C2: a caller-supplied `recvWindow` is preserved verbatim and no
second entry is injected; when absent, exactly `5000` is injected after
the injected timestamp, before encoding and signing. -/
theorem recv_window_round_trip (params : List (String × String)) (ts : Nat) :
    (containsKey params "recvWindow" = true →
      signedItems params ts = params ++ [("timestamp", toString ts)]) ∧
    (containsKey params "recvWindow" = false →
      signedItems params ts = params ++ [("timestamp", toString ts), ("recvWindow", "5000")]) := by
  constructor <;> intro h <;> simp [signedItems, h]

/-- Witness for C2: one mapping with `recvWindow` and one without. -/
theorem recv_window_round_trip_witness :
    signedItems [("recvWindow", "900")] 5 = [("recvWindow", "900")] ++ [("timestamp", toString 5)] ∧
    signedItems [("a", "b")] 5 =
      [("a", "b")] ++ [("timestamp", toString 5), ("recvWindow", "5000")] :=
  ⟨(recv_window_round_trip [("recvWindow", "900")] 5).1 rfl,
   (recv_window_round_trip [("a", "b")] 5).2 rfl⟩

/-- Claim C3: `new_order` builds exactly `{symbol, side, type, quantity}`
for MARKET orders (never `price` or `timeInForce`), and additionally
`price` (equal to the given price) and `timeInForce` for LIMIT orders. -/
theorem new_order_param_keys (symbol side quantity tif p : String) (price : Option String) :
    newOrderParams symbol side "MARKET" quantity price tif =
      .ok [("symbol", symbol), ("side", side), ("type", "MARKET"), ("quantity", quantity)] ∧
    containsKey [("symbol", symbol), ("side", side), ("type", "MARKET"),
      ("quantity", quantity)] "price" = false ∧
    containsKey [("symbol", symbol), ("side", side), ("type", "MARKET"),
      ("quantity", quantity)] "timeInForce" = false ∧
    newOrderParams symbol side "LIMIT" quantity (some p) tif =
      .ok ([("symbol", symbol), ("side", side), ("type", "LIMIT"), ("quantity", quantity)] ++
           [("price", p), ("timeInForce", tif)]) :=
  ⟨rfl, rfl, rfl, rfl⟩

/-- Claim C4: every status of 400 or more yields a failure regardless of
parse success, carrying that status; on parse success the failure carries
the body's `code` field and its `msg` field defaulted to
`"Unknown error"`. -/
theorem handle_response_error_status (status : Nat) (data : List (String × Jval))
    (h : 400 ≤ status) :
    handleResponse status (some data) =
      .error (.apiError status (dictGet data "code")
        (dictGetD data "msg" (.jstr "Unknown error"))) ∧
    ∃ e, handleResponse status none = .error e ∧ e.statusOf = status := by
  refine ⟨by simp [handleResponse, h], ?_⟩
  by_cases h6 : status < 600
  · exact ⟨.httpError status, by simp [handleResponse, h, h6], rfl⟩
  · exact ⟨.apiError status none (.jstr "Non-JSON response from Binance API."),
      by simp [handleResponse, h, h6], rfl⟩

/-- Witness for C4 at the spec's example: status 400 with body
`{"code": -1021, "msg": "Timestamp outside recvWindow"}`. -/
theorem handle_response_error_status_witness :
    handleResponse 400
        (some [("code", Jval.jint (-1021)), ("msg", Jval.jstr "Timestamp outside recvWindow")]) =
      .error (.apiError 400
        (dictGet [("code", Jval.jint (-1021)),
          ("msg", Jval.jstr "Timestamp outside recvWindow")] "code")
        (dictGetD [("code", Jval.jint (-1021)),
          ("msg", Jval.jstr "Timestamp outside recvWindow")] "msg" (.jstr "Unknown error"))) ∧
    ∃ e, handleResponse 400 none = .error e ∧ e.statusOf = 400 :=
  handle_response_error_status 400
    [("code", Jval.jint (-1021)), ("msg", Jval.jstr "Timestamp outside recvWindow")]
    (by decide)

/-- Claim C5: an unparseable body is never a success: for a 4xx/5xx status
the generic transport failure is surfaced, otherwise the distinct
non-JSON failure carrying the status and a null provider code. -/
theorem parse_failure_never_success (status : Nat) :
    (∀ d, handleResponse status none ≠ .ok d) ∧
    (400 ≤ status ∧ status < 600 → handleResponse status none = .error (.httpError status)) ∧
    (¬(400 ≤ status ∧ status < 600) →
      handleResponse status none =
        .error (.apiError status none (.jstr "Non-JSON response from Binance API."))) := by
  refine ⟨fun d => ?_, fun h => ?_, fun h => ?_⟩
  · simp only [handleResponse]
    split <;> simp
  · simp [handleResponse, h]
  · simp [handleResponse, h]

/-- Witness for C5 at status 200 with an unparseable body. -/
theorem parse_failure_never_success_witness :
    handleResponse 200 none ≠ .ok [] ∧
    handleResponse 200 none =
      .error (.apiError 200 none (.jstr "Non-JSON response from Binance API.")) :=
  ⟨(parse_failure_never_success 200).1 [], (parse_failure_never_success 200).2.2 (by decide)⟩

/-- Claim C6: every status below 400 whose body parses yields a success
carrying the full parsed structure unchanged. -/
theorem success_carries_parsed_body (status : Nat) (data : List (String × Jval))
    (h : status < 400) : handleResponse status (some data) = .ok data := by
  have h' : ¬ 400 ≤ status := by omega
  simp [handleResponse, h']

/-- Witness for C6 at the spec's example success payload. -/
theorem success_carries_parsed_body_witness :
    handleResponse 200 (some [("orderId", Jval.jint 1), ("status", Jval.jstr "FILLED"),
      ("executedQty", Jval.jstr "10"), ("avgPrice", Jval.jstr "100.5")]) =
    .ok [("orderId", Jval.jint 1), ("status", Jval.jstr "FILLED"),
      ("executedQty", Jval.jstr "10"), ("avgPrice", Jval.jstr "100.5")] :=
  success_carries_parsed_body 200
    [("orderId", Jval.jint 1), ("status", Jval.jstr "FILLED"),
     ("executedQty", Jval.jstr "10"), ("avgPrice", Jval.jstr "100.5")] (by decide)

/-- Claim C7: normalization defaults `status` to `"UNKNOWN"` and
`executedQty` to `"0"` when absent, leaves `avgPrice` absent with no
default, passes `orderId` through including absence, and keeps the full
raw payload. -/
theorem normalize_order_defaults (r : List (String × Jval)) :
    (dictGet r "status" = none → (normalizeOrder r).status = .jstr "UNKNOWN") ∧
    (dictGet r "executedQty" = none → (normalizeOrder r).executed_qty = .jstr "0") ∧
    (dictGet r "avgPrice" = none → (normalizeOrder r).avg_price = none) ∧
    (normalizeOrder r).order_id = dictGet r "orderId" ∧
    (normalizeOrder r).raw_response = r := by
  refine ⟨fun h => ?_, fun h => ?_, fun h => ?_, rfl, rfl⟩ <;>
    simp [normalizeOrder, dictGetD, h]

/-- Witness for C7 at the empty payload, which lacks all three fields. -/
theorem normalize_order_defaults_witness :
    (normalizeOrder []).status = .jstr "UNKNOWN" ∧
    (normalizeOrder []).executed_qty = .jstr "0" ∧
    (normalizeOrder []).avg_price = none :=
  ⟨(normalize_order_defaults []).1 rfl, (normalize_order_defaults []).2.1 rfl,
   (normalize_order_defaults []).2.2.1 rfl⟩

/-- Claim C8: the validators alone reject exactly the malformed inputs: a
price with MARKET, a missing price with LIMIT, and a non-positive
quantity each raise `ValidationError`, while the well-formed counterparts
pass. -/
theorem validation_rejects_malformed (p q : ℚ) :
    validatePriceForLimit "MARKET" (some p) =
      .error "Price must not be provided for MARKET orders." ∧
    validatePriceForLimit "LIMIT" none = .error "Price is required for LIMIT orders." ∧
    (q ≤ 0 → validateQuantity q = .error "Quantity must be greater than 0.") ∧
    (0 < q → validateQuantity q = .ok q) ∧
    validatePriceForLimit "MARKET" none = .ok none ∧
    (0 < p → validatePriceForLimit "LIMIT" (some p) = .ok (some p)) := by
  refine ⟨rfl, rfl, fun h => by simp [validateQuantity, h], fun h => ?_, rfl, fun h => ?_⟩
  · have h' := not_le.mpr h
    simp [validateQuantity, h']
  · have h' := not_le.mpr h
    simp [validatePriceForLimit, validateOrderType, pyUpper, pyStrip, h']

/-- Witness for C8 at concrete quantities and prices. -/
theorem validation_rejects_malformed_witness :
    validateQuantity (-1) = .error "Quantity must be greater than 0." ∧
    validateQuantity 2 = .ok 2 ∧
    validatePriceForLimit "LIMIT" (some 3) = .ok (some 3) :=
  ⟨(validation_rejects_malformed 1 (-1)).2.2.1 (by norm_num),
   (validation_rejects_malformed 1 2).2.2.2.1 (by norm_num),
   (validation_rejects_malformed 3 1).2.2.2.2.2 (by norm_num)⟩

/-- Claim C9: `_build_signed_body` appends the injected entries only to a
local copy of the caller's mapping: the mapping after the call is exactly
the one passed in, and the body produced agrees with the stateless
signing function. -/
theorem build_signed_body_preserves_params (secret : List Nat)
    (params : List (String × String)) (ts : Nat) :
    (buildSignedBodyFrame secret params ts).2 = params ∧
    (buildSignedBodyFrame secret params ts).1 = buildSignedBody secret params ts :=
  ⟨rfl, rfl⟩

/-- Claim C10: at the client layer, a MARKET order with a non-null price
raises no error and its parameter set contains neither `price` nor
`timeInForce`; only the upstream validator rejects that combination. -/
theorem market_price_silently_omitted (symbol side quantity tif p : String) :
    newOrderParams symbol side "MARKET" quantity (some p) tif =
      .ok [("symbol", symbol), ("side", side), ("type", "MARKET"), ("quantity", quantity)] ∧
    containsKey [("symbol", symbol), ("side", side), ("type", "MARKET"),
      ("quantity", quantity)] "price" = false ∧
    containsKey [("symbol", symbol), ("side", side), ("type", "MARKET"),
      ("quantity", quantity)] "timeInForce" = false ∧
    ∀ pr : ℚ, ∃ e, validatePriceForLimit "MARKET" (some pr) = .error e :=
  ⟨rfl, rfl, rfl, fun _ => ⟨"Price must not be provided for MARKET orders.", rfl⟩⟩

end TradingBot
